import Mathlib

/-!
Shallow embedding of the canvas-engine repository (src/index.js and
src/unnamed/part_000). JS numbers are modelled as rationals; the single
nondeterministic primitive Math.random is modelled by passing the drawn
value r (intended range 0 ≤ r < 1) explicitly. Throwing an Error is
modelled by Except String carrying the message.
-/

namespace CanvasEngine

/-- A JS point or vector object with x and y fields. -/
structure Vec2 where
  x : ℚ
  y : ℚ
deriving Repr, DecidableEq

/-- A size object with width and height fields, as produced by setSize. -/
structure Size2 where
  width : ℚ
  height : ℚ
deriving Repr, DecidableEq

/-- The mutable fields of a GameObject (identical in both source variants):
position, velocity, scalar acceleration, size, and the color field that the
emitter init routines assign on the instance. -/
structure GameObject where
  position : Vec2
  velocity : Vec2
  acceleration : ℚ
  size : Size2
  color : String
deriving Repr, DecidableEq

/-- The field values a fresh GameObject has before its settings.init runs:
position (0,0), velocity (0,0), acceleration 0, size 0 by 0; color is
unset in the source, modelled as the empty string. -/
def GameObject.initial : GameObject :=
  { position := { x := 0, y := 0 }
    velocity := { x := 0, y := 0 }
    acceleration := 0
    size := { width := 0, height := 0 }
    color := "" }

/-- setPosition: both coordinates default to the current value when omitted;
the typeof check cannot fail in this typed embedding, so the success path is
total. Optional fields of the argument object are modelled as Option. -/
def GameObject.setPosition (o : GameObject) (x y : Option ℚ) : GameObject :=
  { o with position := { x := x.getD o.position.x, y := y.getD o.position.y } }

/-- setVelocity: same contract as setPosition. -/
def GameObject.setVelocity (o : GameObject) (x y : Option ℚ) : GameObject :=
  { o with velocity := { x := x.getD o.velocity.x, y := y.getD o.velocity.y } }

/-- setAcceleration: throws when a is less than 0 or greater than 1,
otherwise stores a and returns the object. The typeof-number check of the
source cannot fail in this typed embedding. -/
def GameObject.setAcceleration (o : GameObject) (a : ℚ) : Except String GameObject :=
  if a < 0 ∨ a > 1 then
    Except.error "Acceleration must be between 0 and 1."
  else
    Except.ok { o with acceleration := a }

/-- setSize: no check; height defaults to width at the call sites we model. -/
def GameObject.setSize (o : GameObject) (width : ℚ) (height : ℚ) : GameObject :=
  { o with size := { width := width, height := height } }

/-- move: nextPos.x = Px + Vx * A and nextPos.y = Py + Vy * A; the boundary
reflection block is commented out in both sources and hence absent here.
Only the position field is assigned. -/
def GameObject.move (o : GameObject) : GameObject :=
  { o with position :=
      { x := o.position.x + o.velocity.x * o.acceleration
        y := o.position.y + o.velocity.y * o.acceleration } }

/-- The top-level helper randomInRange(max, min = 0) of src/index.js (no
argument normalization): Math.floor(r * (max - min + 1)) + min, where r is
the Math.random draw. -/
def randomInRange (mx mn : ℚ) (r : ℚ) : ℚ :=
  ((⌊r * (mx - mn + 1)⌋ : ℤ) : ℚ) + mn

/-- Engine.random.inRange(min, max) of src/unnamed/part_000: swaps the
arguments when min > max, then returns Math.floor(r * (maximum - minimum
+ 1)) + minimum. The claim concerns integer arguments, so ℤ is used. -/
def inRange (mn mx : ℤ) (r : ℚ) : ℤ :=
  let maximum : ℤ := if mn > mx then mn else mx
  let minimum : ℤ := if mn > mx then mx else mn
  ⌊r * ((maximum : ℚ) - (minimum : ℚ) + 1)⌋ + minimum

/-- The spread range object of the part_000 emitter settings. -/
structure Spread where
  high : ℚ
  low : ℚ
deriving Repr, DecidableEq

/-- The settings object accepted by Engine.createEmitter in part_000; every
field the constructor destructures may be absent (Option / Bool flag). -/
structure EmitterSettings where
  color : Option String := none
  position : Option Vec2 := none
  size : Option ℚ := none
  speed : Option ℚ := none
  spread : Option Spread := none
  init : Bool := false
deriving Repr, DecidableEq

/-- JS v-or-d defaulting for a possibly-absent number: absent and 0 are falsy. -/
def jsOrNum (v : Option ℚ) (d : ℚ) : ℚ :=
  match v with
  | none => d
  | some x => if x = 0 then d else x

/-- JS v-or-d defaulting for a possibly-absent string: absent and "" are falsy. -/
def jsOrStr (v : Option String) (d : String) : String :=
  match v with
  | none => d
  | some s => if s = "" then d else s

/-- The fields of a ParticleEmitter instance (part_000 variant):
limit, color, size, source point, spread range, speed, and the particle
list. -/
structure ParticleEmitter where
  limit : ℕ
  color : String
  size : ℚ
  source : Vec2
  spread : Spread
  speed : ℚ
  particles : List GameObject
deriving Repr, DecidableEq

/-- createParticle of the part_000 emitter: builds a GameObject whose init
runs setSize(size), setPosition(source), setVelocity with x = speed and
y = randomInRange(spread.high, spread.low), setAcceleration(1) (which
cannot throw since 1 is in range), and assigns this.color = color. r is the
Math.random draw consumed by randomInRange. -/
def ParticleEmitter.createParticle (e : ParticleEmitter) (r : ℚ) : GameObject :=
  { GameObject.initial with
      size := { width := e.size, height := e.size }
      position := { x := e.source.x, y := e.source.y }
      velocity := { x := e.speed, y := randomInRange e.spread.high e.spread.low r }
      acceleration := 1
      color := e.color }

/-- The part_000 ParticleEmitter constructor. It destructures settings,
defaults spread to high 3 low -3, color to "black" (|| so "" also defaults),
size to 2 (|| so 0 also defaults), speed to 10 with a supplied number taken
in absolute value, and reads position.x and position.y: when settings omits
position this is a property read on undefined, so the constructor throws a
TypeError before any default applies (there is no position-or-default guard in the
source). The reads x-or-0 and y-or-0 are the identity on rationals. When the init
flag is truthy the list is pre-seeded with one particle, else empty. -/
def createEmitter (limit : ℕ) (settings : EmitterSettings) (r : ℚ) :
    Except String ParticleEmitter :=
  match settings.position with
  | none => Except.error "TypeError: Cannot read properties of undefined (reading x)"
  | some pos =>
    let spr := settings.spread.getD { high := 3, low := -3 }
    let e : ParticleEmitter :=
      { limit := limit
        color := jsOrStr settings.color "black"
        size := jsOrNum settings.size 2
        source := { x := pos.x, y := pos.y }
        spread := { high := spr.high, low := spr.low }
        speed := match settings.speed with
                 | some s => |s|
                 | none => 10
        particles := [] }
    Except.ok { e with particles := if settings.init then [e.createParticle r] else [] }

/-- emit (identical control flow in both variants): every existing particle
moves one step; then if particles.length < limit one fresh particle is
pushed, else the oldest particle (index 0) is shifted off. The else branch
pushes nothing. r is the random draw used when a particle is created. -/
def ParticleEmitter.emit (e : ParticleEmitter) (r : ℚ) : ParticleEmitter :=
  let moved := e.particles.map GameObject.move
  if moved.length < e.limit then
    { e with particles := moved ++ [e.createParticle r] }
  else
    { e with particles := moved.tail }

/-- n consecutive emit() calls, the k-th call consuming the draw rs k. -/
def ParticleEmitter.emitN (e : ParticleEmitter) (rs : ℕ → ℚ) : ℕ → ParticleEmitter
  | 0 => e
  | n + 1 => (e.emitN rs n).emit (rs n)

/-- The keys of the shared states table (both variants): init, start, play,
pause, end, last. -/
def statesKeys : List String := ["init", "start", "play", "pause", "end", "last"]

/-- The mutable part of the src/index.js states table: only the last field
is ever reassigned; the five state values are the fixed strings. -/
structure JsStates where
  last : Option String
deriving Repr, DecidableEq

/-- Value lookup states[k] in src/index.js, parametrized by the current
value of states.last (null is modelled as none). -/
def jsStatesVal (last : Option String) (k : String) : Option String :=
  if k = "init" then some "INIT"
  else if k = "start" then some "START"
  else if k = "play" then some "PLAY"
  else if k = "pause" then some "PAUSE"
  else if k = "end" then some "END"
  else last

/-- The observable Engine state of src/index.js: the state field (a state
string, or null if states.last were ever null when read) plus a flag
recording whether start() has installed the RENDER_LOOP and SIM_LOOP
callbacks (the timer side effects themselves are outside the embedding). -/
structure EngineJs where
  state : Option String
  loopsInstalled : Bool
deriving Repr, DecidableEq

/-- setState of src/index.js: if states.hasOwnProperty(state) then first
states.last = this.state, then this.state = states[state] (so for the key
"last" the value read is the one just written); otherwise it throws. The
input table is never read on the success path precisely because last is
overwritten before any lookup. -/
def EngineJs.setState (e : EngineJs) (_tbl : JsStates) (k : String) :
    Except String (EngineJs × JsStates) :=
  if k ∈ statesKeys then
    Except.ok ({ e with state := jsStatesVal e.state k }, { last := e.state })
  else
    Except.error ("No state found for " ++ k)

/-- start of src/index.js: guarded by state === states.init; inside the
guard it installs the two loop callbacks and never assigns this.state, so
the state stays INIT. Outside the guard nothing happens. -/
def EngineJs.start (e : EngineJs) : EngineJs :=
  if e.state = some "INIT" then { e with loopsInstalled := true } else e

/-- The mutable part of the part_000 states table (values 0..4, last). -/
structure NumStates where
  last : Option ℤ
deriving Repr, DecidableEq

/-- Value lookup states[k] in part_000, parametrized by states.last. -/
def numStatesVal (last : Option ℤ) (k : String) : Option ℤ :=
  if k = "init" then some 0
  else if k = "start" then some 1
  else if k = "play" then some 2
  else if k = "pause" then some 3
  else if k = "end" then some 4
  else last

/-- Object.keys(states).map(k => states[k]) in part_000: the five numeric
values followed by the current states.last. -/
def numStatesVals (tbl : NumStates) : List (Option ℤ) :=
  [some 0, some 1, some 2, some 3, some 4, tbl.last]

/-- A JS argument to the part_000 setState: either a number-or-null value
or a string name; indexOf over the numeric vals list can only match a
value argument, and hasOwnProperty only a name. -/
inductive StateArg where
  | val : Option ℤ → StateArg
  | name : String → StateArg
deriving Repr, DecidableEq

/-- The observable Engine state of part_000, as for EngineJs but with
numeric state values. -/
structure EngineNum where
  state : Option ℤ
  loopsInstalled : Bool
deriving Repr, DecidableEq

/-- setState of part_000: vals is computed from the table before
states.last = this.state runs; a value argument found in vals (note vals
contains the old last, so null matches exactly when last was null) becomes
the new state; otherwise a name that is a key reads states[name] after last
was overwritten; otherwise last is restored and the call throws, leaving
the table unchanged (errors carry no state in this embedding). -/
def EngineNum.setState (e : EngineNum) (tbl : NumStates) (a : StateArg) :
    Except String (EngineNum × NumStates) :=
  match a with
  | StateArg.val v =>
    if v ∈ numStatesVals tbl then
      Except.ok ({ e with state := v }, { last := e.state })
    else
      Except.error "Cannot find state"
  | StateArg.name s =>
    if s ∈ statesKeys then
      Except.ok ({ e with state := numStatesVal e.state s }, { last := e.state })
    else
      Except.error "Cannot find state"

/-- start of part_000: guarded by state === states.init (value 0); inside
the guard it installs the two loop callbacks and then calls
this.setState(states.start); the error branch of the match is unreachable
since some 1 is always a member of vals. -/
def EngineNum.start (e : EngineNum) (tbl : NumStates) : EngineNum × NumStates :=
  if e.state = some 0 then
    let e1 : EngineNum := { e with loopsInstalled := true }
    match e1.setState tbl (StateArg.val (some 1)) with
    | Except.ok p => p
    | Except.error _ => (e1, tbl)
  else (e, tbl)

/-- Settings supplying only a source position (everything else defaulted). -/
def cfgA : EmitterSettings := { position := some { x := 0, y := 0 } }

/-- Settings supplying a source position and the init pre-seed flag. -/
def cfgSeed : EmitterSettings := { position := some { x := 0, y := 0 }, init := true }

/-- A constant stream of Math.random draws, all zero. -/
def rz : ℕ → ℚ := fun _ => 0

/-- A concrete emitter as built by createEmitter 2 cfgA: capacity 2, all
defaults, empty particle list. -/
def emitterA : ParticleEmitter :=
  { limit := 2
    color := "black"
    size := 2
    source := { x := 0, y := 0 }
    spread := { high := 3, low := -3 }
    speed := 10
    particles := [] }

/-- A concrete emitter already at capacity: limit 1 with one particle. -/
def emitterB : ParticleEmitter :=
  { emitterA with limit := 1, particles := [GameObject.initial] }

/-- A concrete game object with zero velocity and nonzero acceleration. -/
def obj0 : GameObject :=
  { GameObject.initial with
      position := { x := 3, y := 4 }
      acceleration := 1 / 2 }

/-- A freshly constructed src/index.js engine: state INIT, no loops yet. -/
def engineJs0 : EngineJs := { state := some "INIT", loopsInstalled := false }

/-- An src/index.js engine in state PLAY. -/
def engineJsPlay : EngineJs := { state := some "PLAY", loopsInstalled := false }

/-- The src/index.js states table before any transition: last is null. -/
def jsStates0 : JsStates := { last := none }

/-- A freshly constructed part_000 engine: state 0 (INIT), no loops yet. -/
def engineNum0 : EngineNum := { state := some 0, loopsInstalled := false }

/-- A part_000 engine in state 2 (PLAY). -/
def engineNumPlay : EngineNum := { state := some 2, loopsInstalled := false }

/-- The part_000 states table before any transition: last is null. -/
def numStates0 : NumStates := { last := none }

/-- emit never changes the limit field. -/
theorem ParticleEmitter.emit_limit (e : ParticleEmitter) (r : ℚ) : (e.emit r).limit = e.limit := by
  simp only [ParticleEmitter.emit]
  split <;> rfl

/-- The length dynamics of one emit call: one particle is appended while
strictly under the limit, otherwise one is removed and none appended. -/
theorem ParticleEmitter.emit_length (e : ParticleEmitter) (r : ℚ) :
    (e.emit r).particles.length =
      if e.particles.length < e.limit then
        e.particles.length + 1
      else
        e.particles.length - 1 := by
  simp only [ParticleEmitter.emit, List.length_map]
  split <;> simp

/-- Iterated emit calls never change the limit field. -/
theorem ParticleEmitter.emitN_limit (e : ParticleEmitter) (rs : ℕ → ℚ) (n : ℕ) :
    (e.emitN rs n).limit = e.limit := by
  induction n with
  | zero => rfl
  | succ n ih =>
    show ((e.emitN rs n).emit (rs n)).limit = e.limit
    rw [ParticleEmitter.emit_limit, ih]

/-- Growth phase: starting from an empty particle list, each of the first
limit emit calls appends one particle, so after n ≤ limit calls the list
has exactly n particles. -/
theorem ParticleEmitter.emitN_length_growth (e : ParticleEmitter) (rs : ℕ → ℚ) (n : ℕ)
    (h : e.particles = []) (hn : n ≤ e.limit) :
    (e.emitN rs n).particles.length = n := by
  revert hn
  induction n with
  | zero =>
    intro _
    simp [ParticleEmitter.emitN, h]
  | succ n ih =>
    intro hn
    have ihn := ih (Nat.le_of_succ_le hn)
    show ((e.emitN rs n).emit (rs n)).particles.length = n + 1
    rw [ParticleEmitter.emit_length, ParticleEmitter.emitN_limit, ihn]
    have hlt : n < e.limit := hn
    simp [hlt]

/-- Steady phase: starting from an empty particle list, after limit + k
emit calls the list holds limit - k % 2 particles: the call made at full
capacity removes the oldest particle without appending, and the next call
appends one again. -/
theorem ParticleEmitter.emitN_length_steady (e : ParticleEmitter) (rs : ℕ → ℚ) (k : ℕ)
    (h : e.particles = []) :
    (e.emitN rs (e.limit + k)).particles.length = e.limit - k % 2 := by
  induction k with
  | zero =>
    simpa using ParticleEmitter.emitN_length_growth e rs e.limit h le_rfl
  | succ k ih =>
    show ((e.emitN rs (e.limit + k)).emit (rs (e.limit + k))).particles.length
        = e.limit - (k + 1) % 2
    rw [ParticleEmitter.emit_length, ParticleEmitter.emitN_limit, ih]
    split <;> omega

/-- Bounds for the scaled floor at the heart of both random helpers. -/
theorem floor_scale_bounds (m M : ℤ) (r : ℚ) (hmM : m ≤ M) (h0 : 0 ≤ r) (h1 : r < 1) :
    0 ≤ ⌊r * ((M : ℚ) - (m : ℚ) + 1)⌋ ∧ ⌊r * ((M : ℚ) - (m : ℚ) + 1)⌋ ≤ M - m := by
  have hc : (m : ℚ) ≤ (M : ℚ) := by exact_mod_cast hmM
  have hpos : (0 : ℚ) < (M : ℚ) - (m : ℚ) + 1 := by linarith
  refine ⟨Int.floor_nonneg.mpr (mul_nonneg h0 (le_of_lt hpos)), ?_⟩
  have hlt : r * ((M : ℚ) - (m : ℚ) + 1) < (M : ℚ) - (m : ℚ) + 1 := by
    calc r * ((M : ℚ) - (m : ℚ) + 1) < 1 * ((M : ℚ) - (m : ℚ) + 1) :=
          mul_lt_mul_of_pos_right h1 hpos
    _ = (M : ℚ) - (m : ℚ) + 1 := one_mul _
  have hfl : ⌊r * ((M : ℚ) - (m : ℚ) + 1)⌋ < M - m + 1 := by
    apply Int.floor_lt.mpr
    push_cast
    linarith
  omega

/-- C1 (amended). For an emitter that starts with an empty particle list,
after n ≥ capacity emit() calls particles.length is capacity - (n -
capacity) % 2, alternating between capacity and capacity - 1 rather than
holding at capacity: a call made at (or above) capacity removes the oldest
particle (index 0) and appends nothing, while a call made strictly below
capacity appends one freshly created particle and removes nothing, so a
removal and an append happen on alternating calls, not both in one call. -/
theorem emitter_steady_state :
    (∀ (e : ParticleEmitter) (rs : ℕ → ℚ) (n : ℕ), e.particles = [] → e.limit ≤ n →
      (e.emitN rs n).particles.length = e.limit - (n - e.limit) % 2) ∧
    (∀ (e : ParticleEmitter) (r : ℚ), e.limit ≤ e.particles.length →
      (e.emit r).particles = (e.particles.map GameObject.move).tail) ∧
    (∀ (e : ParticleEmitter) (r : ℚ), e.particles.length < e.limit →
      (e.emit r).particles = e.particles.map GameObject.move ++ [e.createParticle r]) := by
  refine ⟨?_, ?_, ?_⟩
  · intro e rs n h hn
    have hsum : e.limit + (n - e.limit) = n := Nat.add_sub_cancel' hn
    have hst := ParticleEmitter.emitN_length_steady e rs (n - e.limit) h
    rwa [hsum] at hst
  · intro e r h
    have hnot : ¬ e.particles.length < e.limit := not_lt.mpr h
    simp [ParticleEmitter.emit, List.length_map, hnot]
  · intro e r h
    simp [ParticleEmitter.emit, List.length_map, h]

/-- Witness for C1: with capacity 2 and empty start, after 4 calls the
formula gives 2 - (4 - 2) % 2 = 2; at capacity only the shift happens; and
below capacity only the push happens. -/
theorem emitter_steady_state_wit :
    (emitterA.emitN rz 4).particles.length = emitterA.limit - (4 - emitterA.limit) % 2 ∧
    (emitterB.emit 0).particles = (emitterB.particles.map GameObject.move).tail ∧
    (emitterA.emit 0).particles = emitterA.particles.map GameObject.move ++ [emitterA.createParticle 0] :=
  ⟨emitter_steady_state.1 emitterA rz 4 rfl (by decide),
   emitter_steady_state.2.1 emitterB 0 (by decide),
   emitter_steady_state.2.2 emitterA 0 (by decide)⟩

/-- Counterexample for C1 as stated: an emitter constructed without a
pre-seeded particle and capacity 2 has, after 3 ≥ 2 emit() calls, only 1
particle, not capacity = 2 - the claim that the length reaches capacity
and stays there is false, since the at-capacity call removes the oldest
particle without appending a replacement. -/
theorem emitter_steady_state_cex :
    (createEmitter 2 cfgA 0).map
      (fun e => ((e.emitN rz 3).particles.length, e.limit)) = Except.ok (1, 2) := rfl

/-- C2 (amended). Whenever the current particle count is at most the
capacity - which holds for every emitter constructed without the init
pre-seed and for every emitter with capacity ≥ 1 - no number of emit()
calls can push particles.length above the capacity. -/
theorem emitter_capacity_bound (e : ParticleEmitter) (rs : ℕ → ℚ) (n : ℕ)
    (h : e.particles.length ≤ e.limit) :
    (e.emitN rs n).particles.length ≤ e.limit := by
  induction n with
  | zero => exact h
  | succ n ih =>
    show ((e.emitN rs n).emit (rs n)).particles.length ≤ e.limit
    rw [ParticleEmitter.emit_length, ParticleEmitter.emitN_limit]
    split <;> omega

/-- Witness for C2: the capacity-2 emitter stays within bound for 5 calls. -/
theorem emitter_capacity_bound_wit :
    (emitterA.emitN rz 5).particles.length ≤ emitterA.limit :=
  emitter_capacity_bound emitterA rz 5 (by decide)

/-- Counterexample for C2 as stated: an emitter constructed with capacity 0
and the init pre-seed flag holds 1 particle after zero emit() calls, so
particles.length exceeds the configured capacity. -/
theorem emitter_capacity_bound_cex :
    (createEmitter 0 cfgSeed 0).map
      (fun e => (e.particles.length, e.limit)) = Except.ok (1, 0) := rfl

/-- C3. move() sets position to position + velocity * acceleration on each
axis, and leaves the position unchanged when the velocity is zero on both
components or the acceleration is zero. -/
theorem move_integrates_position (o : GameObject) :
    (o.move).position.x = o.position.x + o.velocity.x * o.acceleration ∧
    (o.move).position.y = o.position.y + o.velocity.y * o.acceleration ∧
    ((o.velocity = { x := 0, y := 0 } ∨ o.acceleration = 0) → (o.move).position = o.position) := by
  refine ⟨rfl, rfl, ?_⟩
  rintro (hv | ha)
  · simp [GameObject.move, hv]
  · simp [GameObject.move, ha]

/-- Witness for C3: the zero-velocity object obj0 does not move. -/
theorem move_integrates_position_wit : (obj0.move).position = obj0.position :=
  (move_integrates_position obj0).2.2 (Or.inl rfl)

/-- C4. setAcceleration(a) throws the range error exactly when a < 0 or
a > 1 and otherwise stores a and returns the object, so the endpoints 0
and 1 are both accepted. The typeof-number check is vacuous in the typed
embedding. -/
theorem setAcceleration_spec (o : GameObject) (a : ℚ) :
    ((a < 0 ∨ a > 1) →
      o.setAcceleration a = Except.error "Acceleration must be between 0 and 1.") ∧
    (0 ≤ a → a ≤ 1 →
      o.setAcceleration a = Except.ok { o with acceleration := a }) := by
  constructor
  · intro h
    simp [GameObject.setAcceleration, h]
  · intro h0 h1
    have hnot : ¬ (a < 0 ∨ a > 1) := by
      push_neg
      exact ⟨h0, h1⟩
    simp [GameObject.setAcceleration, hnot]

/-- Witness for C4: -1/10 and 11/10 are rejected, 0 and 1 are accepted. -/
theorem setAcceleration_spec_wit :
    GameObject.initial.setAcceleration (-1 / 10)
        = Except.error "Acceleration must be between 0 and 1." ∧
    GameObject.initial.setAcceleration (11 / 10)
        = Except.error "Acceleration must be between 0 and 1." ∧
    GameObject.initial.setAcceleration 0
        = Except.ok { GameObject.initial with acceleration := 0 } ∧
    GameObject.initial.setAcceleration 1
        = Except.ok { GameObject.initial with acceleration := 1 } :=
  ⟨(setAcceleration_spec GameObject.initial (-1 / 10)).1 (Or.inl (by norm_num)),
   (setAcceleration_spec GameObject.initial (11 / 10)).1 (Or.inr (by norm_num)),
   (setAcceleration_spec GameObject.initial 0).2 le_rfl zero_le_one,
   (setAcceleration_spec GameObject.initial 1).2 zero_le_one le_rfl⟩

/-- C5 (amended). start is a no-op whenever the state differs from INIT;
called in state INIT it installs the render and simulation loops in both
variants, but only the part_000 variant transitions the state to START
(value 1, recording the prior state 0): the src/index.js variant never
assigns the state, which stays INIT. -/
theorem start_spec :
    (∀ e : EngineJs, e.state ≠ some "INIT" → e.start = e) ∧
    (∀ e : EngineJs, e.state = some "INIT" →
      (e.start).loopsInstalled = true ∧ (e.start).state = some "INIT") ∧
    (∀ (e : EngineNum) (tbl : NumStates), e.state ≠ some 0 → e.start tbl = (e, tbl)) ∧
    (∀ (e : EngineNum) (tbl : NumStates), e.state = some 0 →
      (e.start tbl).1.loopsInstalled = true ∧ (e.start tbl).1.state = some 1 ∧
      (e.start tbl).2.last = some 0) := by
  refine ⟨?_, ?_, ?_, ?_⟩
  · intro e h
    simp [EngineJs.start, h]
  · intro e h
    simp [EngineJs.start, h]
  · intro e tbl h
    simp [EngineNum.start, h]
  · intro e tbl h
    simp [EngineNum.start, EngineNum.setState, numStatesVals, h]

/-- Witness for C5: a PLAY-state engine is untouched by start in either
variant; an INIT-state engine gets its loops installed in both, keeps
state INIT in the src/index.js variant, and moves to state 1 in the
part_000 variant. -/
theorem start_spec_wit :
    engineJsPlay.start = engineJsPlay ∧
    ((engineJs0.start).loopsInstalled = true ∧ (engineJs0.start).state = some "INIT") ∧
    engineNumPlay.start numStates0 = (engineNumPlay, numStates0) ∧
    ((engineNum0.start numStates0).1.loopsInstalled = true ∧
      (engineNum0.start numStates0).1.state = some 1 ∧
      (engineNum0.start numStates0).2.last = some 0) :=
  ⟨start_spec.1 engineJsPlay (by decide),
   start_spec.2.1 engineJs0 rfl,
   start_spec.2.2.1 engineNumPlay numStates0 (by decide),
   start_spec.2.2.2 engineNum0 numStates0 rfl⟩

/-- Counterexample for C5 as stated: the src/index.js engine started from
INIT does install its loops, yet its state afterwards is still INIT, not
START - the claimed transition to START does not happen in this variant. -/
theorem start_spec_cex :
    (engineJs0.start).loopsInstalled = true ∧ (engineJs0.start).state ≠ some "START" :=
  ⟨rfl, by decide⟩

/-- C6 (code bug). Constructing the part_000 emitter with a settings
object that omits position throws a TypeError while reading position.x,
before any default can apply - even though the constructor declares the
default settings = \x7b\x7d and defaults every other field. With position
supplied the documented defaults do apply: color "black", size 2, speed 10,
spread high 3 low -3, and the particle list starts empty unless the init
flag pre-seeds one particle. -/
theorem createEmitter_missing_position_bug :
    createEmitter 25 {} 0
        = Except.error "TypeError: Cannot read properties of undefined (reading x)" ∧
    (createEmitter 25 cfgA 0).map
      (fun e => (e.color, e.size, e.speed, e.spread.high, e.spread.low, e.particles.length))
        = Except.ok ("black", 2, 10, 3, -3, 0) ∧
    (createEmitter 25 cfgSeed 0).map (fun e => e.particles.length) = Except.ok 1 :=
  ⟨rfl, rfl, rfl⟩

/-- C7 (amended). In the part_000 variant setState accepts a known state
value (membership in the vals list, which also contains the current
states.last) or a known key name, errors otherwise, and on success records
the prior engine state in states.last. In the src/index.js variant only
key names are accepted: an internal state value such as "INIT" is rejected
with the unknown-state error, names succeed and record the prior state. -/
theorem setState_spec :
    (∀ (e : EngineJs) (tbl : JsStates) (k : String), k ∈ statesKeys →
      e.setState tbl k
        = Except.ok ({ e with state := jsStatesVal e.state k }, { last := e.state })) ∧
    (∀ (e : EngineJs) (tbl : JsStates) (k : String), k ∉ statesKeys →
      e.setState tbl k = Except.error ("No state found for " ++ k)) ∧
    (∀ (e : EngineNum) (tbl : NumStates) (v : Option ℤ), v ∈ numStatesVals tbl →
      e.setState tbl (StateArg.val v)
        = Except.ok ({ e with state := v }, { last := e.state })) ∧
    (∀ (e : EngineNum) (tbl : NumStates) (k : String), k ∈ statesKeys →
      e.setState tbl (StateArg.name k)
        = Except.ok ({ e with state := numStatesVal e.state k }, { last := e.state })) ∧
    (∀ (e : EngineNum) (tbl : NumStates) (v : Option ℤ), v ∉ numStatesVals tbl →
      e.setState tbl (StateArg.val v) = Except.error "Cannot find state") ∧
    (∀ (e : EngineNum) (tbl : NumStates) (k : String), k ∉ statesKeys →
      e.setState tbl (StateArg.name k) = Except.error "Cannot find state") := by
  refine ⟨?_, ?_, ?_, ?_, ?_, ?_⟩
  · intro e tbl k h
    simp [EngineJs.setState, h]
  · intro e tbl k h
    simp [EngineJs.setState, h]
  · intro e tbl v h
    simp [EngineNum.setState, h]
  · intro e tbl k h
    simp [EngineNum.setState, h]
  · intro e tbl v h
    simp [EngineNum.setState, h]
  · intro e tbl k h
    simp [EngineNum.setState, h]

/-- Witness for C7: each of the six branches at a concrete engine, table
and argument. -/
theorem setState_spec_wit :
    engineJs0.setState jsStates0 "play"
        = Except.ok ({ engineJs0 with state := jsStatesVal engineJs0.state "play" },
            { last := engineJs0.state }) ∧
    engineJs0.setState jsStates0 "PLAY" = Except.error ("No state found for " ++ "PLAY") ∧
    engineNum0.setState numStates0 (StateArg.val (some 2))
        = Except.ok ({ engineNum0 with state := some 2 }, { last := engineNum0.state }) ∧
    engineNum0.setState numStates0 (StateArg.name "play")
        = Except.ok ({ engineNum0 with state := numStatesVal engineNum0.state "play" },
            { last := engineNum0.state }) ∧
    engineNum0.setState numStates0 (StateArg.val (some 9)) = Except.error "Cannot find state" ∧
    engineNum0.setState numStates0 (StateArg.name "bogus") = Except.error "Cannot find state" :=
  ⟨setState_spec.1 engineJs0 jsStates0 "play" (by decide),
   setState_spec.2.1 engineJs0 jsStates0 "PLAY" (by decide),
   setState_spec.2.2.1 engineNum0 numStates0 (some 2) (by decide),
   setState_spec.2.2.2.1 engineNum0 numStates0 "play" (by decide),
   setState_spec.2.2.2.2.1 engineNum0 numStates0 (some 9) (by decide),
   setState_spec.2.2.2.2.2 engineNum0 numStates0 "bogus" (by decide)⟩

/-- Counterexample for C7 as stated: in src/index.js the string "INIT" is
the internal value of the init state, yet setState("INIT") throws the
unknown-state error because only table keys are looked up. -/
theorem setState_spec_cex :
    engineJs0.setState jsStates0 "INIT" = Except.error "No state found for INIT" := rfl

/-- C8. Engine.random.inRange normalizes its two integer arguments so the
larger is the true maximum and, for every random draw r with 0 ≤ r < 1,
returns an integer between the smaller and the larger argument inclusive,
regardless of argument order. -/
theorem inRange_bounds (a b : ℤ) (r : ℚ) (h0 : 0 ≤ r) (h1 : r < 1) :
    min a b ≤ inRange a b r ∧ inRange a b r ≤ max a b := by
  by_cases hab : a > b
  · have hdef : inRange a b r = ⌊r * ((a : ℚ) - (b : ℚ) + 1)⌋ + b := by
      simp [inRange, hab]
    have hfb := floor_scale_bounds b a r (le_of_lt hab) h0 h1
    have hmin : min a b = b := min_eq_right (le_of_lt hab)
    have hmax : max a b = a := max_eq_left (le_of_lt hab)
    rw [hdef, hmin, hmax]
    omega
  · push_neg at hab
    have hdef : inRange a b r = ⌊r * ((b : ℚ) - (a : ℚ) + 1)⌋ + a := by
      simp [inRange, not_lt.mpr hab]
    have hfb := floor_scale_bounds a b r hab h0 h1
    have hmin : min a b = a := min_eq_left hab
    have hmax : max a b = b := max_eq_right hab
    rw [hdef, hmin, hmax]
    omega

/-- Witness for C8: inRange 5 2 with draw 1/2 lies between 2 and 5. -/
theorem inRange_bounds_wit :
    min 5 2 ≤ inRange 5 2 (1 / 2) ∧ inRange 5 2 (1 / 2) ≤ max 5 2 :=
  inRange_bounds 5 2 (1 / 2) (by norm_num) (by norm_num)

/-- C9. move() assigns only the position field: velocity, acceleration,
size and color are the same after the call as before it. -/
theorem move_only_position (o : GameObject) :
    (o.move).velocity = o.velocity ∧ (o.move).acceleration = o.acceleration ∧
    (o.move).size = o.size ∧ (o.move).color = o.color :=
  ⟨rfl, rfl, rfl, rfl⟩

/-- C10 (amended). setState with the key "last" never raises the
unknown-state error, but because states.last is overwritten with the
current state before the value is read, it sets the engine state to the
state the engine already holds (leaving it unchanged) and records that
same state as the remembered previous state - it never restores the older
remembered value and never yields null. Both variants behave this way. -/
theorem setState_last_spec (e : EngineJs) (tbl : JsStates) (e2 : EngineNum) (tbl2 : NumStates) :
    e.setState tbl "last" = Except.ok (e, { last := e.state }) ∧
    e2.setState tbl2 (StateArg.name "last") = Except.ok (e2, { last := e2.state }) := by
  constructor
  · simp [EngineJs.setState, statesKeys, jsStatesVal]
  · simp [EngineNum.setState, statesKeys, numStatesVal]

/-- Counterexample for C10 as stated: on a fresh engine no prior transition
is recorded (states.last is null), so the claim says setState("last") sets
the state to null; instead the resulting state is the current state INIT. -/
theorem setState_last_spec_cex :
    (engineJs0.setState jsStates0 "last").map (fun p => p.1.state) = Except.ok (some "INIT") ∧
    jsStates0.last = none :=
  ⟨rfl, rfl⟩

end CanvasEngine
